import Mathlib

/-!
Verification development for the sandboxed execution engine of the
ck-coding-lab repository (src/static/js/sandbox.js).  The file embeds the
`SandboxRunner` controller, its mode detection, the user-code escaping of
`buildP5SandboxHTML`, the message handling, and the instrumented per-frame
hook wrapper as executable Lean definitions, and proves or refutes the
frozen claims about them.

The source file contains two revisions of `SandboxRunner` separated by a
document marker; line references below use the combined file.  Revision A
spans lines 1-334, revision B lines 335-657.  Where the two revisions agree
(run / stop / cleanup / handleMessage / escaping / frame-limit logic) a
single definition embeds both; where they differ (hook interception
mechanism) both are embedded separately.

Modelling conventions: JavaScript strings are Lean `String` (a list of
chars); `setTimeout` handles are `Option Nat` (the armed delay, `none` when
cleared); the DOM container's contents are abstracted to the four shapes
the controller writes into it; the iframe plus its `srcdoc` is the
`Artifact` stored in the `iframe` field.  The focus logic, `onReady`
callback queue and console logging have no effect on any claim and are not
modelled; all modelled functions are total, matching the fact that the
JavaScript bodies guard every nullable access (`if (this.config.timeoutId)`,
`if (this.iframe)`, `if (this._messageHandler)`).
-/

namespace Sandbox

/-! ## String primitives mirroring the JavaScript ones used by sandbox.js -/

/-- Whitespace characters removed by the JavaScript `String.prototype.trim`
(restricted to the ASCII range, which covers every input the claims use). -/
def isJsSpace (c : Char) : Bool :=
  c == ' ' || c == '\t' || c == '\n' || c == '\r' || c == '\x0b' || c == '\x0c'

/-- Character-list form of `code.trim()`: drop leading and trailing
whitespace. -/
def trimChars (l : List Char) : List Char :=
  ((l.dropWhile isJsSpace).reverse.dropWhile isJsSpace).reverse

/-- The JavaScript `code.trim()` (sandbox.js line 32). -/
def trimStr (s : String) : String :=
  String.mk (trimChars s.data)

/-- Whether the first list begins with the second-to-first argument pattern:
`leadsWith p l` is true when `p` is an initial segment of `l`.  Mirrors the
JavaScript `String.prototype.startsWith` receiver/argument split below. -/
def leadsWith : List Char → List Char → Bool
  | [], _ => true
  | _ :: _, [] => false
  | p :: ps, c :: cs => p == c && leadsWith ps cs

/-- The JavaScript `s.startsWith(p)`. -/
def startsWithStr (s p : String) : Bool :=
  leadsWith p.data s.data

/-- Whether `needle` occurs as a contiguous subsequence of the second
argument; scans every suffix. -/
def containsSeq (needle : List Char) : List Char → Bool
  | [] => leadsWith needle []
  | c :: cs => leadsWith needle (c :: cs) || containsSeq needle cs

/-- The JavaScript `hay.includes(needle)` (sandbox.js line 36). -/
def containsStr (hay needle : String) : Bool :=
  containsSeq needle.data hay.data

/-- ASCII lowercasing of a whole string; used only to state the spec's
notion of case-insensitive containment. -/
def lowerStr (s : String) : String :=
  String.mk (s.data.map Char.toLower)

/-! ## User-code escaping (buildP5SandboxHTML, lines 148 and 481)

The source runs `userCode.replace(/<\/script>/gi, '<\\/script>')`: every
case-insensitive occurrence of the nine characters `</script>` is replaced,
left to right and without overlap, by the ten characters `<\/script>`. -/

/-- The replacement text `<\/script>` produced for each match. -/
def closeTagRepl : List Char :=
  '<' :: '\\' :: '/' :: 's' :: 'c' :: 'r' :: 'i' :: 'p' :: 't' :: '>' :: []

/-- Case-insensitive comparison of six characters against the letters of
the word script, exactly as the `i` flag of the regex treats them. -/
def scriptWord (c1 c2 c3 c4 c5 c6 : Char) : Bool :=
  c1.toLower == 's' && c2.toLower == 'c' && c3.toLower == 'r' &&
  c4.toLower == 'i' && c5.toLower == 'p' && c6.toLower == 't'

/-- Whether the list begins with a case-insensitive match of the regex
`<\/script>` (the exact nine-character close tag). -/
def isCloseScriptTag : List Char → Bool
  | '<' :: '/' :: c1 :: c2 :: c3 :: c4 :: c5 :: c6 :: '>' :: _ =>
      scriptWord c1 c2 c3 c4 c5 c6
  | _ => false

/-- Left-to-right, non-overlapping global replacement, the semantics of
`String.prototype.replace` with a `g`-flagged regex.  The first argument is
fuel (the input length suffices: every step consumes at least one
character); fuel keeps the recursion structural so the function evaluates
inside the kernel. -/
def escapeAux : Nat → List Char → List Char
  | 0, l => l
  | _ + 1, [] => []
  | fuel + 1, c :: cs =>
      if isCloseScriptTag (c :: cs) then
        closeTagRepl ++ escapeAux fuel (List.drop 8 cs)
      else
        c :: escapeAux fuel cs

/-- The `escapedCode` computation of `buildP5SandboxHTML`
(sandbox.js lines 148 and 481). -/
def escapeUserCode (userCode : String) : String :=
  String.mk (escapeAux userCode.data.length userCode.data)

/-! ## What actually closes a script scope in the host environment

Per the HTML parsing algorithm (script data end tag name state), the
embedded script element is closed by the characters `</script` followed by
tab, LF, FF, CR, space, `/` or `>` (tag name matched ASCII
case-insensitively).  This predicate formalises the spec's "substring that
would prematurely close the shim's enclosing execution scope". -/

/-- Characters that, after `</script`, make the HTML tokenizer treat it as
an appropriate end tag. -/
def isScriptEndTerm (c : Char) : Bool :=
  c == '\t' || c == '\n' || c == '\x0c' || c == '\r' ||
  c == ' ' || c == '/' || c == '>'

/-- Whether the list begins with `</script` (case-insensitive) followed by
an end-tag terminator character. -/
def startsCloseScript : List Char → Bool
  | '<' :: '/' :: c1 :: c2 :: c3 :: c4 :: c5 :: c6 :: t :: _ =>
      scriptWord c1 c2 c3 c4 c5 c6 && isScriptEndTerm t
  | _ => false

/-- Whether any position of the list starts a scope-closing sequence. -/
def closesScriptScope : List Char → Bool
  | [] => false
  | c :: cs => startsCloseScript (c :: cs) || closesScriptScope cs

/-! ## Status events and artifacts -/

/-- The tagged union posted by the artifact to the host over the message
channel: `parent.postMessage({type, message, line})` with type `error`,
`firstFrame` or `setupComplete`. -/
inductive StatusEvent where
  | error (message : String) (line : Option Nat)
  | firstFrame
  | setupComplete
deriving DecidableEq

/-- The content loaded into the isolation boundary (the iframe `srcdoc`).
`document` holds the raw code passed verbatim by `runHTML` (line 64).
`script` holds the escaped user snippet that `buildP5SandboxHTML` embeds
between the fixed library-bootstrap / instrumentation-shim template text
(lines 151-277); the fixed template around it is constant and is not
re-stated here. -/
inductive Artifact where
  | document (srcdoc : String)
  | script (escapedUserCode : String)
deriving DecidableEq

/-- `buildP5SandboxHTML` (lines 146-278): escapes the user code and wraps
it in the fixed p5.js sandbox template. -/
def buildP5SandboxHTML (userCode : String) : Artifact :=
  Artifact.script (escapeUserCode userCode)

/-! ## Host controller state -/

/-- The visible contents of the preview container: untouched, the
empty-code placeholder paragraph (line 28), cleared with the iframe
appended (lines 61-62, 86-87), or the diagnostic panel written by
`stop(reason)` (lines 310-313). -/
inductive ContainerContent where
  | initial
  | placeholder
  | frame
  | diagnostic (reason : String)
deriving DecidableEq

/-- The mutable state of one `SandboxRunner` instance: `iframe`
(the isolation boundary, lines 6, 55, 80), `config.timeoutId` (line 10,
holding the armed delay), `config.maxExecutionTime` (line 8),
`config.isWebGL` (line 11), `loaded` (line 13), whether the bound message
handler is attached to the window (lines 104-105, 316-318), and the
container contents. -/
structure RunnerState where
  iframe : Option Artifact
  timeoutId : Option Nat
  maxExecutionTime : Nat
  isWebGL : Bool
  loaded : Bool
  messageHandlerAttached : Bool
  container : ContainerContent
deriving DecidableEq

/-- The state built by the constructor (lines 4-15). -/
def initialRunner : RunnerState :=
  { iframe := none, timeoutId := none, maxExecutionTime := 5000,
    isWebGL := false, loaded := false, messageHandlerAttached := false,
    container := ContainerContent.initial }

/-- `stop(reason)` (lines 298-319): clear the timeout if armed, remove the
iframe if present, write the diagnostic panel when a reason is supplied,
and detach the message listener. -/
def stop (s : RunnerState) (reason : Option String) : RunnerState :=
  let s1 := { s with timeoutId := none }
  let s2 := { s1 with iframe := none }
  let s3 :=
    match reason with
    | some r => { s2 with container := ContainerContent.diagnostic r }
    | none => s2
  { s3 with messageHandlerAttached := false }

/-- `cleanup()` (lines 329-331): `stop` with no reason. -/
def cleanup (s : RunnerState) : RunnerState :=
  stop s none

/-- The `looksLikeHTML` test (line 33): the trimmed code starts with the
character `<` or the two characters `<!` (the second disjunct is subsumed
by the first but is kept as written). -/
def looksLikeHTML (code : String) : Bool :=
  startsWithStr (trimStr code) "<" || startsWithStr (trimStr code) "<!"

/-- The two run modes of the engine. -/
inductive Mode where
  | document
  | script
deriving DecidableEq

/-- The branch condition of line 44: `language === 'html' || looksLikeHTML`
selects the document branch (`runHTML`), anything else the script branch
(`runP5JS`). -/
def detectMode (code language : String) : Mode :=
  if language = "html" ∨ looksLikeHTML code = true then Mode.document
  else Mode.script

/-- The WEBGL heuristic of line 36:
`code.includes('WEBGL') || code.includes('webgl')`. -/
def detectWebGL (code : String) : Bool :=
  containsStr code "WEBGL" || containsStr code "webgl"

/-- `runHTML(htmlCode)` (lines 51-72): reset `loaded`, create the iframe,
load the raw code verbatim as its `srcdoc`.  No timeout is armed and no
message listener attached in this branch. -/
def runHTML (s : RunnerState) (htmlCode : String) : RunnerState :=
  { s with loaded := false,
           iframe := some (Artifact.document htmlCode),
           container := ContainerContent.frame }

/-- `runP5JS(userCode)` (lines 74-106): reset `loaded`, build the sandbox
artifact, create the iframe, arm the wall-clock guard sized by
`config.maxExecutionTime` (lines 90-92), load the artifact and attach the
message listener (lines 104-105). -/
def runP5JS (s : RunnerState) (userCode : String) : RunnerState :=
  { s with loaded := false,
           iframe := some (buildP5SandboxHTML userCode),
           container := ContainerContent.frame,
           timeoutId := some s.maxExecutionTime,
           messageHandlerAttached := true }

/-- `run(code, language)` (lines 17-49): always `cleanup()` first; empty or
whitespace-only code renders the placeholder and returns; otherwise set the
WEBGL config (lines 36-42) and dispatch on the mode (lines 44-48).  The
missing-container early return (lines 21-24) is not modelled: the container
element is assumed to exist. -/
def run (s0 : RunnerState) (code language : String) : RunnerState :=
  let s := cleanup s0
  if (trimStr code).data.isEmpty then
    { s with container := ContainerContent.placeholder }
  else
    let w := detectWebGL code
    let s := { s with isWebGL := w,
                      maxExecutionTime := if w then 15000 else 5000 }
    match detectMode code language with
    | Mode.document => runHTML s code
    | Mode.script => runP5JS s code

/-- `handleMessage(event)` (lines 280-296): nothing without data; an error
event is only logged (no state change); a firstFrame event clears the
timeout when one is armed; setupComplete is only logged. -/
def handleMessage (s : RunnerState) (data : Option StatusEvent) : RunnerState :=
  match data with
  | none => s
  | some (StatusEvent.error _ _) => s
  | some StatusEvent.firstFrame =>
      if s.timeoutId.isSome then { s with timeoutId := none } else s
  | some StatusEvent.setupComplete => s

/-- The reason string passed to `stop` when the guard fires (line 91). -/
def timeoutReason : String :=
  "Execution timeout (infinite loop protection). Try refreshing or simplifying your code."

/-- The wall-clock guard firing (lines 90-92): the `setTimeout` callback
runs only while the handle is still armed, and calls `stop` with the
timeout reason. -/
def fireTimeout (s : RunnerState) : RunnerState :=
  if s.timeoutId.isSome then stop s (some timeoutReason) else s

/-! ## The instrumented per-frame hook

Both revisions wrap the user draw hook with the same body (revision A
lines 224-249, revision B lines 543-562): increment `frameCount`, post
`firstFrame` once, and past `maxFrames` call `noLoop()`, show the panel
text, post the frame-limit error and return without invoking the user
hook; otherwise invoke the user hook inside try/catch, posting a draw
error if it throws.  The state below is the shim's per-run private state
(`frameCount`, `firstFrameRendered`, lines 186-188/514-516) together with
`looping` (the p5 animation-loop flag that `noLoop()` clears), the number
of user-hook invocations performed, and the ordered list of posted
events. -/

/-- `const maxFrames = 100000` (lines 9, 188, 516). -/
def maxFrames : Nat := 100000

structure DrawShimState where
  frameCount : Nat
  firstFrameRendered : Bool
  looping : Bool
  userCalls : Nat
  events : List StatusEvent
deriving DecidableEq

/-- Shim state at artifact load: counter zero, nothing rendered, the
library loop running, no events posted. -/
def initDrawShim : DrawShimState :=
  { frameCount := 0, firstFrameRendered := false, looping := true,
    userCalls := 0, events := [] }

/-- One invocation of the wrapped draw hook.  `thrown` is `some m` when the
user hook body throws an exception with message `m` on this frame, `none`
when it returns normally. -/
def drawStep (thrown : Option String) (s0 : DrawShimState) : DrawShimState :=
  let s1 := { s0 with frameCount := s0.frameCount + 1 }
  let s2 :=
    if s1.firstFrameRendered then s1
    else { s1 with firstFrameRendered := true,
                   events := s1.events ++ [StatusEvent.firstFrame] }
  if s2.frameCount > maxFrames then
    { s2 with looping := false,
              events := s2.events ++ [StatusEvent.error "Frame limit reached" none] }
  else
    match thrown with
    | none => { s2 with userCalls := s2.userCalls + 1 }
    | some m =>
        { s2 with userCalls := s2.userCalls + 1,
                  events := s2.events ++
                    [StatusEvent.error (String.append "Draw error: " m) none] }

/-- The shim state after `n` invocations of the wrapped hook, the user
hook returning normally each time. -/
def iterDraw : Nat → DrawShimState
  | 0 => initDrawShim
  | n + 1 => drawStep none (iterDraw n)

/-- Whether an event is the frame-limit-tagged error
(`message: 'Frame limit reached'`, lines 238/552). -/
def isFrameLimitMsg : StatusEvent → Bool
  | StatusEvent.error m _ => m == "Frame limit reached"
  | _ => false

/-- Number of frame-limit errors among the posted events. -/
def frameLimitCount (l : List StatusEvent) : Nat :=
  l.countP isFrameLimitMsg

/-! ## Hook interception mechanisms

Revision A (lines 222-224) wraps by value: it reads the current global
hook into `originalDraw` and writes a wrapper closing over it back into
the global slot; the user snippet evaluates afterwards (line 257).
Revision B (lines 540-564) instead makes the global hook name an accessor
property whose setter stores the wrapped function; any later write through
the slot is wrapped, any read yields the stored wrapped function.  The
model traces what the global slot holds when the drawing library finally
invokes it. -/

/-- A value held by (or readable from) the global hook slot. -/
inductive HookVal where
  | undef
  | userFn (id : Nat)
  | wrapper (captured : HookVal)
deriving DecidableEq

/-- Revision A shim installation (lines 223-224):
`const originalDraw = window.draw; window.draw = function() {...}` — the
slot now holds a wrapper closing over whatever was there before. -/
def shimInstallDirect (slot : HookVal) : HookVal :=
  HookVal.wrapper slot

/-- A plain write to a global data property: the user snippet assigning
`window.draw = fn` (or the assignment performed when a sloppy-mode
`function draw() \x7b...\x7d` declaration in the user block executes)
simply replaces the stored value. -/
def assignGlobal (_slot : HookVal) (v : HookVal) : HookVal :=
  v

/-- The hook the library reads after a revision A artifact evaluates: the
slot is undefined when the shim captures it (the user snippet, inside the
same script, has not yet run), the shim installs its wrapper, then the
user definition — if any — writes the slot. -/
def revA_finalHook (userDef : Option Nat) : HookVal :=
  let slot := HookVal.undef
  let slot := shimInstallDirect slot
  match userDef with
  | none => slot
  | some i => assignGlobal slot (HookVal.userFn i)

/-- Revision B accessor backing store: `let userDraw = null` (line 520)
holding what the setter stored. -/
structure AccessorSlot where
  userDraw : Option HookVal
deriving DecidableEq

/-- The revision B set trap (lines 542-563): store the wrapped incoming
function. -/
def accessorWrite (_s : AccessorSlot) (fn : HookVal) : AccessorSlot :=
  { userDraw := some (HookVal.wrapper fn) }

/-- The revision B get trap (line 541): return the stored value. -/
def accessorRead (s : AccessorSlot) : HookVal :=
  s.userDraw.getD HookVal.undef

/-- The hook the library reads after a revision B artifact evaluates with
an optional user definition written through the slot. -/
def revB_finalHook (userDef : Option Nat) : HookVal :=
  let s : AccessorSlot := { userDraw := none }
  let s :=
    match userDef with
    | none => s
    | some i => accessorWrite s (HookVal.userFn i)
  accessorRead s

/-- Whether the slot value is the shim's wrapper (interception in effect). -/
def isWrapped : HookVal → Bool
  | HookVal.wrapper _ => true
  | _ => false

/-- A concrete script-mode run used to instantiate witness statements:
a plain p5 snippet, no markup, no WEBGL marker. -/
def sampleScriptState : RunnerState :=
  run initialRunner "circle(50)" "p5js"

/-! ## Helper lemmas -/

/-- A string that starts with the two characters `<!` also starts with the
single character `<`. -/
lemma startsWith_lt_of_ltBang (t : String) (h : startsWithStr t "<!" = true) :
    startsWithStr t "<" = true := by
  have hd : "<!".data = '<' :: '!' :: [] := rfl
  have hd1 : "<".data = '<' :: [] := rfl
  unfold startsWithStr at h ⊢
  rw [hd] at h
  rw [hd1]
  cases ht : t.data with
  | nil => rw [ht] at h; simp [leadsWith] at h
  | cons c cs =>
      rw [ht] at h
      simp [leadsWith] at h ⊢
      exact h.1

/-- The `looksLikeHTML` test reduces to its first disjunct. -/
lemma looksLikeHTML_iff (code : String) :
    looksLikeHTML code = true ↔ startsWithStr (trimStr code) "<" = true := by
  unfold looksLikeHTML
  constructor
  · intro h
    rcases Bool.or_eq_true_iff.mp h with h | h
    · exact h
    · exact startsWith_lt_of_ltBang _ h
  · intro h
    rw [h, Bool.true_or]

/-- Counting through a single appended event. -/
lemma frameLimitCount_append_one (l : List StatusEvent) (e : StatusEvent) :
    frameLimitCount (l ++ [e]) =
      frameLimitCount l + (if isFrameLimitMsg e then 1 else 0) := by
  unfold frameLimitCount
  rw [List.countP_append]
  simp [List.countP_cons]

/-- Field-level description of one wrapped-hook invocation with a
normally-returning user hook. -/
lemma drawStep_none_fields (s : DrawShimState) :
    (drawStep none s).frameCount = s.frameCount + 1
  ∧ (drawStep none s).firstFrameRendered = true
  ∧ (drawStep none s).looping =
      (if maxFrames < s.frameCount + 1 then false else s.looping)
  ∧ (drawStep none s).userCalls =
      (if maxFrames < s.frameCount + 1 then s.userCalls else s.userCalls + 1)
  ∧ frameLimitCount (drawStep none s).events =
      frameLimitCount s.events + (if maxFrames < s.frameCount + 1 then 1 else 0) := by
  unfold drawStep
  by_cases hf : s.firstFrameRendered <;>
    by_cases hl : maxFrames < s.frameCount + 1 <;>
      simp [hf, hl, gt_iff_lt, frameLimitCount, List.countP_append,
            List.countP_cons, isFrameLimitMsg]

/-- Invariants of `n` invocations of the wrapped hook: the counter equals
`n`; the first-frame flag is set iff any invocation happened; the library
loop survives exactly while the counter stays within `maxFrames`; the user
hook runs on the first `maxFrames` invocations only; and the number of
frame-limit errors posted is `n - maxFrames`. -/
lemma iterDraw_invariants (n : Nat) :
    (iterDraw n).frameCount = n
  ∧ (iterDraw n).firstFrameRendered = decide (0 < n)
  ∧ (iterDraw n).looping = decide (n ≤ maxFrames)
  ∧ (iterDraw n).userCalls = min n maxFrames
  ∧ frameLimitCount (iterDraw n).events = n - maxFrames := by
  induction n with
  | zero =>
      refine ⟨rfl, rfl, ?_, ?_, ?_⟩
      · symm
        exact decide_eq_true (Nat.zero_le _)
      · simp [iterDraw, initDrawShim]
      · simp [iterDraw, initDrawShim, frameLimitCount]
  | succ n ih =>
      obtain ⟨h1, h2, h3, h4, h5⟩ := ih
      obtain ⟨g1, g2, g3, g4, g5⟩ := drawStep_none_fields (iterDraw n)
      rw [h1] at g3 g4 g5
      refine ⟨?_, ?_, ?_, ?_, ?_⟩
      · show (drawStep none (iterDraw n)).frameCount = n + 1
        rw [g1, h1]
      · show (drawStep none (iterDraw n)).firstFrameRendered = decide (0 < n + 1)
        rw [g2]
        symm
        rw [decide_eq_true_eq]
        omega
      · show (drawStep none (iterDraw n)).looping = decide (n + 1 ≤ maxFrames)
        rw [g3, h3]
        split
        · next h =>
            symm
            rw [decide_eq_false_iff_not]
            omega
        · next h =>
            rw [decide_eq_decide]
            omega
      · show (drawStep none (iterDraw n)).userCalls = min (n + 1) maxFrames
        rw [g4, h4]
        clear g1 g2 g3 g5 h1 h2 h3 h5
        split <;> omega
      · show frameLimitCount (drawStep none (iterDraw n)).events = n + 1 - maxFrames
        rw [g5, h5]
        clear g1 g2 g3 g4 h1 h2 h3 h4
        split <;> omega

/-! ## Claims -/

/-- Claim C1: receiving an Error status event only logs it: the handler
returns the state unchanged (iframe, armed guard and all other fields),
and more generally no message-channel event ever removes the isolation
boundary; among the controller's autonomous reactions only the wall-clock
guard firing destroys the boundary. -/
theorem c1_error_event_logs_only (s : RunnerState) :
    (∀ msg line, handleMessage s (some (StatusEvent.error msg line)) = s)
  ∧ (∀ d, (handleMessage s d).iframe = s.iframe)
  ∧ (s.timeoutId.isSome = true → (fireTimeout s).iframe = none) := by
  refine ⟨fun _ _ => rfl, fun d => ?_, fun h => ?_⟩
  · cases d with
    | none => rfl
    | some e =>
        cases e with
        | error m l => rfl
        | firstFrame =>
            by_cases h : s.timeoutId.isSome <;> simp [handleMessage, h]
        | setupComplete => rfl
  · simp [fireTimeout, h, stop]

/-- Claim C1 witness: a concretely armed script run; an error event leaves
the state intact, while the guard firing removes the boundary. -/
theorem c1_error_event_logs_only_check :
    handleMessage sampleScriptState (some (StatusEvent.error "x" none))
      = sampleScriptState
  ∧ (fireTimeout sampleScriptState).iframe = none :=
  ⟨(c1_error_event_logs_only sampleScriptState).1 "x" none,
   (c1_error_event_logs_only sampleScriptState).2.2 (by decide)⟩

/-- Claim C2 counterexample: the claim says invoking the wrapped hook
maxFrames + 1 or more times emits exactly one frame-limit-tagged error and
that the hook becomes a no-op past the limit; but at maxFrames + 2
invocations the code has posted two frame-limit errors (one per invocation
past the limit), not one. -/
theorem c2_frame_limit_counterexample :
    frameLimitCount (iterDraw (maxFrames + 2)).events = 2
  ∧ ¬ frameLimitCount (iterDraw (maxFrames + 2)).events = 1 := by
  obtain ⟨-, -, -, -, h5⟩ := iterDraw_invariants (maxFrames + 2)
  have hm : maxFrames + 2 - maxFrames = 2 := by omega
  rw [h5, hm]
  exact ⟨rfl, by omega⟩

/-- Claim C2 (amended): after n invocations of the wrapped hook the number
of frame-limit-tagged errors posted is n - maxFrames (so exactly one at
exactly maxFrames + 1 invocations, and one more per further invocation:
the wrapper re-posts the error rather than becoming a silent no-op); the
user hook is invoked on the first maxFrames invocations only, and the
library animation loop is stopped (noLoop) exactly when the counter has
exceeded maxFrames. -/
theorem c2_frame_limit_amended (n : Nat) :
    frameLimitCount (iterDraw n).events = n - maxFrames
  ∧ (iterDraw n).userCalls = min n maxFrames
  ∧ (iterDraw n).looping = decide (n ≤ maxFrames) := by
  obtain ⟨-, -, h3, h4, h5⟩ := iterDraw_invariants n
  exact ⟨h5, h4, h3⟩

/-- Claim C3: the revision A shim (direct wrapping, lines 222-224) does
not intercept a hook the user defines after shim installation — and the
user snippet always evaluates after the shim (line 257) — because the
plain global write replaces the installed wrapper: the library ends up
invoking the raw user function.  The revision B accessor shim
(lines 540-564) does wrap the same late definition. -/
theorem c3_late_hook_definition_not_wrapped :
    revA_finalHook (some 7) = HookVal.userFn 7
  ∧ isWrapped (revA_finalHook (some 7)) = false
  ∧ isWrapped (revB_finalHook (some 7)) = true := by
  decide

/-- Claim C4 counterexample: the claim says detection of the
rendering-mode marker is case-insensitive, but the code checks only the
exact spellings WEBGL and webgl (line 36): the mixed-case input WebGL
contains the marker case-insensitively, is a non-empty script-mode run,
and still gets the 5000 ms budget instead of 15000. -/
theorem c4_case_counterexample :
    containsStr (lowerStr "WebGL") "webgl" = true
  ∧ (trimStr "WebGL").data.isEmpty = false
  ∧ detectMode "WebGL" "p5js" = Mode.script
  ∧ (run initialRunner "WebGL" "p5js").maxExecutionTime = 5000
  ∧ ¬ (run initialRunner "WebGL" "p5js").maxExecutionTime = 15000 := by
  decide

/-- Claim C4 (amended): for every non-empty script-mode run,
maxExecutionTime is 15000 exactly when the raw code contains WEBGL or
webgl as an exact substring (the two spellings the code checks), and 5000
otherwise; the isWebGL flag records the same test. -/
theorem c4_webgl_budget_amended (s : RunnerState) (code language : String)
    (h1 : (trimStr code).data.isEmpty = false)
    (h2 : detectMode code language = Mode.script) :
    (run s code language).maxExecutionTime
      = (if detectWebGL code then 15000 else 5000)
  ∧ (run s code language).isWebGL = detectWebGL code := by
  simp [run, h1, h2, cleanup, stop, runP5JS]

/-- Claim C4 witness: a marker-free snippet gets the 5000 ms budget. -/
theorem c4_webgl_budget_amended_check :
    (run initialRunner "ellipse(50,50,20,20)" "p5").maxExecutionTime
      = (if detectWebGL "ellipse(50,50,20,20)" then 15000 else 5000)
  ∧ (run initialRunner "ellipse(50,50,20,20)" "p5").isWebGL
      = detectWebGL "ellipse(50,50,20,20)" :=
  c4_webgl_budget_amended initialRunner "ellipse(50,50,20,20)" "p5"
    (by decide) (by decide)

/-- Claim C5: every code string whose trimmed form starts with the
character < is classified Document regardless of the language hint, and in
general the detector yields Document exactly when the hint is html or the
trimmed code starts with <. -/
theorem c5_mode_detector_rule :
    (∀ code language, startsWithStr (trimStr code) "<" = true →
        detectMode code language = Mode.document)
  ∧ (∀ code language, detectMode code language = Mode.document ↔
        (language = "html" ∨ startsWithStr (trimStr code) "<" = true)) := by
  constructor
  · intro code language h
    unfold detectMode
    rw [if_pos (Or.inr ((looksLikeHTML_iff code).mpr h))]
  · intro code language
    constructor
    · intro hd
      unfold detectMode at hd
      split at hd
      · next hc =>
          rcases hc with hc | hc
          · exact Or.inl hc
          · exact Or.inr ((looksLikeHTML_iff code).mp hc)
      · exact absurd hd (by simp)
    · intro h
      unfold detectMode
      rcases h with h | h
      · rw [if_pos (Or.inl h)]
      · rw [if_pos (Or.inr ((looksLikeHTML_iff code).mpr h))]

/-- Claim C5 witness: markup with a script-library hint is still
classified Document. -/
theorem c5_mode_detector_rule_check :
    detectMode "<svg></svg>" "p5js" = Mode.document :=
  c5_mode_detector_rule.1 "<svg></svg>" "p5js" (by decide)

/-- Claim C6: a document-mode run never arms the wall-clock guard and
loads the raw code string verbatim as the boundary contents, with no
instrumentation (the document artifact carries the input unchanged, not
the shim-wrapped script artifact). -/
theorem c6_document_mode_verbatim (s : RunnerState) (code language : String)
    (h1 : (trimStr code).data.isEmpty = false)
    (h2 : detectMode code language = Mode.document) :
    (run s code language).timeoutId = none
  ∧ (run s code language).iframe = some (Artifact.document code)
  ∧ (run s code language).messageHandlerAttached = false := by
  simp [run, h1, h2, cleanup, stop, runHTML]

/-- Claim C6 witness: the spec's own scenario, a full page run with the
document hint. -/
theorem c6_document_mode_verbatim_check :
    (run initialRunner "<html><body>Hi</body></html>" "document").timeoutId = none
  ∧ (run initialRunner "<html><body>Hi</body></html>" "document").iframe
      = some (Artifact.document "<html><body>Hi</body></html>")
  ∧ (run initialRunner "<html><body>Hi</body></html>" "document").messageHandlerAttached
      = false :=
  c6_document_mode_verbatim initialRunner "<html><body>Hi</body></html>"
    "document" (by decide) (by decide)

/-- Claim C7: the escaping of buildP5SandboxHTML rewrites only the exact
nine characters of the close tag, so the snippet consisting of `<`, `/`,
the word script and a space before `>` passes through unchanged even
though the HTML tokenizer treats it as closing the script element — the
user snippet can still terminate the shim scope early.  The exact close
tag itself is neutralized, as the last conjunct shows. -/
theorem c7_escape_gap :
    escapeUserCode "</script >" = "</script >"
  ∧ closesScriptScope ((escapeUserCode "</script >").data) = true
  ∧ closesScriptScope ((escapeUserCode "abc</script>def").data) = false := by
  decide

/-- Claim C8: a FirstFrame event always leaves the guard disarmed,
cancelling it when armed; received when no guard is armed (in particular
after the guard has fired and teardown occurred) it is ignored without any
effect; and no transition that ends a run (stop with any reason, or the
guard firing) leaves a handle armed. -/
theorem c8_first_frame_guard (s : RunnerState) :
    (handleMessage s (some StatusEvent.firstFrame)).timeoutId = none
  ∧ (s.timeoutId = none → handleMessage s (some StatusEvent.firstFrame) = s)
  ∧ (∀ r, (stop s r).timeoutId = none)
  ∧ (fireTimeout s).timeoutId = none := by
  refine ⟨?_, ?_, ?_, ?_⟩
  · cases ht : s.timeoutId <;> simp [handleMessage, ht]
  · intro h
    simp [handleMessage, h]
  · intro r
    cases r <;> rfl
  · cases ht : s.timeoutId <;> simp [fireTimeout, ht, stop]

/-- Claim C8 witness: after the guard of a concrete armed run has fired,
a late FirstFrame event leaves the torn-down state exactly as it is. -/
theorem c8_first_frame_guard_check :
    handleMessage (fireTimeout sampleScriptState) (some StatusEvent.firstFrame)
      = fireTimeout sampleScriptState :=
  (c8_first_frame_guard (fireTimeout sampleScriptState)).2.1 (by decide)

/-- Claim C9: cleanup is idempotent and always lands in the idle shape —
no armed guard and no live boundary — including on the freshly constructed
controller; every guarded access in stop makes the call total, so nothing
throws. -/
theorem c9_cleanup_idempotent_idle (s : RunnerState) :
    cleanup (cleanup s) = cleanup s
  ∧ (cleanup s).timeoutId = none
  ∧ (cleanup s).iframe = none
  ∧ (cleanup initialRunner).timeoutId = none
  ∧ (cleanup initialRunner).iframe = none := by
  exact ⟨rfl, rfl, rfl, rfl, rfl⟩

/-- Claim C10: a run with empty or whitespace-only code renders the
placeholder and returns with no isolation boundary and no armed guard,
from any prior state. -/
theorem c10_empty_code_no_boundary (s : RunnerState) (code language : String)
    (h : (trimStr code).data.isEmpty = true) :
    (run s code language).iframe = none
  ∧ (run s code language).timeoutId = none
  ∧ (run s code language).container = ContainerContent.placeholder := by
  simp [run, h, cleanup, stop]

/-- Claim C10 witness: a whitespace-only run on a fresh controller. -/
theorem c10_empty_code_no_boundary_check :
    (run initialRunner "   " "p5js").iframe = none
  ∧ (run initialRunner "   " "p5js").timeoutId = none
  ∧ (run initialRunner "   " "p5js").container = ContainerContent.placeholder :=
  c10_empty_code_no_boundary initialRunner "   " "p5js" (by decide)

end Sandbox
